import Mathlib

/-!
Verification of the interface-lifecycle orchestration core of the
wifi-dashboard-v2 repository (manager/interface_manager.py,
manager/manager_logic.py, manager/app.py).

The Python code is shallowly embedded: every external effect (subprocess
invocation, Docker API call) is represented by an explicit outcome value
supplied through an environment record, and each embedded function returns,
alongside the value the Python function returns, the resulting manager state,
container world, and flags recording which effects the call performed.
-/

namespace WifiDash

/-- Truthiness of a Python `Optional[str]`: `None` and `""` are falsy. -/
def truthy : Option String → Bool
  | none => false
  | some s => s ≠ ""

/-- Splitting of a character list on one separator character, keeping empty
fields, with the accumulator holding the current field reversed. -/
def splitChAux (sep : Char) : List Char → List Char → List String
  | [], acc => [String.mk acc.reverse]
  | c :: rest, acc =>
    if c = sep then String.mk acc.reverse :: splitChAux sep rest []
    else splitChAux sep rest (c :: acc)

/-- Python `s.split(sep)` for a one-character separator (empty fields kept),
implemented over the character list so that it evaluates by kernel
reduction. -/
def splitCh (s : String) (sep : Char) : List String :=
  splitChAux sep s.data []

/-- Collector of whitespace-separated words from a character list. -/
def pywordsAux : List Char → List Char → List String
  | [], acc => if acc.isEmpty then [] else [String.mk acc.reverse]
  | c :: rest, acc =>
    if c.isWhitespace then
      if acc.isEmpty then pywordsAux rest []
      else String.mk acc.reverse :: pywordsAux rest []
    else pywordsAux rest (c :: acc)

/-- Python `str.split()` with no argument: split on runs of whitespace,
dropping empty fields. -/
def pywords (s : String) : List String :=
  pywordsAux s.data []

/-- Test of one list being a prefix of another. -/
def isPrefixChars : List Char → List Char → Bool
  | [], _ => true
  | _ :: _, [] => false
  | p :: ps, c :: cs => p = c && isPrefixChars ps cs

/-- Occurrence of `pat` at any position of the list. -/
def containsSubAux (pat : List Char) : List Char → Bool
  | [] => isPrefixChars pat []
  | c :: cs => isPrefixChars pat (c :: cs) || containsSubAux pat cs

/-- Python `pat in s` substring test. -/
def containsSub (s pat : String) : Bool :=
  containsSubAux pat.data s.data

/-- Python `s.startswith(pre)`. -/
def strStartsWith (s pre : String) : Bool :=
  isPrefixChars pre.data s.data

/-- Python `str.strip()`: drop leading and trailing whitespace. -/
def pytrim (s : String) : String :=
  String.mk (((s.data.dropWhile Char.isWhitespace).reverse.dropWhile
    Char.isWhitespace).reverse)

/-- Python `dict[k] = v`: replace the value in place if the key is present,
otherwise append the new binding. -/
def setKey {β : Type} : List (String × β) → String → β → List (String × β)
  | [], k, v => [(k, v)]
  | (k', v') :: rest, k, v =>
    if k' = k then (k, v) :: rest else (k', v') :: setKey rest k v

/-- Python `del dict[k]` (on a dict no key occurs twice, so removing every
binding of `k` is the same as removing the one binding). -/
def eraseKey {β : Type} (l : List (String × β)) (k : String) : List (String × β) :=
  l.filter (fun p => p.1 ≠ k)

/-- Outcome of one blocking external-tool invocation (`subprocess.run` /
`subprocess.check_output`): completed with exit status 0 and this stdout,
completed with a non-zero exit status (`CalledProcessError`, carrying stderr),
or raised `TimeoutExpired`. -/
inductive Outcome where
  | ok (out : String)
  | fail (err : String)
  | timeout
  deriving Repr, DecidableEq

def Outcome.isOk : Outcome → Bool
  | .ok _ => true
  | _ => false

def Outcome.isFail : Outcome → Bool
  | .fail _ => true
  | _ => false

def Outcome.isTimeout : Outcome → Bool
  | .timeout => true
  | _ => false

/-! ## interface_manager.py -/

/-- Scan of the `iw dev <iface> info` stdout performed by
`InterfaceManager.get_phy_name`: for the first line containing `"wiphy"`
whose whitespace-split has at least two fields, return `"phy" ++ field 1`
(the source strips the line first, which is redundant before a
whitespace-split). -/
def parseWiphy (out : String) : Option String :=
  (splitCh out '\n').findSome? (fun line =>
    if containsSub line "wiphy" then
      match pywords line with
      | _ :: n :: _ => some ("phy" ++ n)
      | _ => none
    else none)

/-- Embedding of `InterfaceManager.get_phy_name` as a function of the outcome
of its single external call `iw dev <iface> info`.  On a successful call whose
output yields no wiphy number it falls back to `"phy0"` (the behaviour the
spec flags as a bug); on `CalledProcessError`, `TimeoutExpired` or any other
exception it returns `None`. -/
def get_phy_name (iwInfo : Outcome) : Option String :=
  match iwInfo with
  | .ok out =>
    match parseWiphy out with
    | some p => some p
    | none => some "phy0"
  | .fail _ => none
  | .timeout => none

/-- Environment of one `InterfaceManager.move_to_container` call: the Docker
lookup of the target container (`none` = NotFound, otherwise its PID) and the
outcome of each external command the call may run. -/
structure MoveEnv where
  clientOk : Bool
  container : Option Nat
  iwInfo : Outcome
  linkDown : Outcome
  phyMove : Outcome
  nsLinkShow : Outcome
  nsRename : Outcome
  nsUp : Outcome
  deriving Repr, DecidableEq

/-- Result of `InterfaceManager.move_to_container`: the returned
`(success, message)` pair, which phy (if any) was successfully moved into the
container namespace, and whether the compensating `return_to_host` call was
made. -/
structure MoveResult where
  success : Bool
  message : String
  movedPhy : Option String
  compensated : Bool
  deriving Repr, DecidableEq

/-- Embedding of `InterfaceManager.move_to_container`.  Control flow follows
the source: Docker lookup and PID check, `get_phy_name` (failure aborts),
best-effort host link-down (only `CalledProcessError` is tolerated; a timeout
escapes to the outermost generic handler), the phy move (non-zero exit is
returned verbatim with the tool's stderr), then in-container link-show,
rename and bring-up, where only a `CalledProcessError` of rename/bring-up
triggers the compensating `return_to_host`; a timeout of any of the three
in-container commands escapes to the generic handler (message
`"Unexpected error: ..."`) without compensation. -/
def move_to_container (iface cname target : String) (env : MoveEnv) : MoveResult :=
  if !env.clientOk then
    ⟨false, "Docker client not available - check Docker socket permissions", none, false⟩
  else
    match env.container with
    | none => ⟨false, s!"Container {cname} not found", none, false⟩
    | some pid =>
      if pid = 0 then
        ⟨false, s!"Container {cname} is not running (PID=0)", none, false⟩
      else
        match get_phy_name env.iwInfo with
        | none => ⟨false, s!"Could not determine phy name for {iface}", none, false⟩
        | some phy =>
          if env.linkDown.isTimeout then
            ⟨false, "Unexpected error: timeout", none, false⟩
          else
            match env.phyMove with
            | .fail e =>
              ⟨false, s!"Failed to move interface to container namespace: {e}", none, false⟩
            | .timeout => ⟨false, "Unexpected error: timeout", none, false⟩
            | .ok _ =>
              if env.nsLinkShow.isTimeout then
                ⟨false, "Unexpected error: timeout", some phy, false⟩
              else
                match env.nsRename with
                | .fail e =>
                  ⟨false, s!"Failed to configure interface in container: {e}", some phy, true⟩
                | .timeout => ⟨false, "Unexpected error: timeout", some phy, false⟩
                | .ok _ =>
                  match env.nsUp with
                  | .fail e =>
                    ⟨false, s!"Failed to configure interface in container: {e}", some phy, true⟩
                  | .timeout => ⟨false, "Unexpected error: timeout", some phy, false⟩
                  | .ok _ =>
                    ⟨true, s!"Interface {iface} moved to container as {target}", some phy, false⟩

/-- Environment of one `InterfaceManager.return_to_host` call: outcomes of the
direct in-namespace `ip link set <iface> netns 1` move, of the host-side
bring-up, of the `iw dev <iface> info` call made by the nested
`get_phy_name`, and of the phy-level `iw phy <phy> set netns 1` move. -/
structure ReturnEnv where
  directMove : Outcome
  hostUp : Outcome
  iwInfo : Outcome
  phyMove : Outcome
  deriving Repr, DecidableEq

/-- Result of `InterfaceManager.return_to_host`: the returned boolean and
whether the radio/PHY-level fallback path (the `CalledProcessError` handler of
the direct move) was entered. -/
structure ReturnResult where
  success : Bool
  retriedPhy : Bool
  deriving Repr, DecidableEq

/-- Embedding of `InterfaceManager.return_to_host`.  The direct
interface-level move runs first; only its `CalledProcessError` enters the
phy-level fallback (which needs `get_phy_name` to resolve and the phy move to
exit 0); a `TimeoutExpired` of the direct move, or of the subsequent
best-effort host bring-up, is caught by the outermost generic handler and
returns `False` without the fallback.  Every exception is caught, so the
function never raises to its caller. -/
def return_to_host (iface : String) (pid : Nat) (env : ReturnEnv) : ReturnResult :=
  match env.directMove with
  | .ok _ =>
    if env.hostUp.isTimeout then ⟨false, false⟩ else ⟨true, false⟩
  | .fail _ =>
    match get_phy_name env.iwInfo with
    | some _ =>
      match env.phyMove with
      | .ok _ => ⟨true, true⟩
      | _ => ⟨false, true⟩
    | none => ⟨false, true⟩
  | .timeout => ⟨false, false⟩

/-! ## manager_logic.py: data model -/

/-- One value of the persisted `interfaces` map: the assignment record written
by `PersonaManager.start_persona`. -/
structure AssignRec where
  container_id : String
  container_name : String
  persona_type : String
  deriving Repr, DecidableEq

/-- One value of the persisted `personas` map (the fields the core logic
reads back: container name, persona type, bound interface). -/
structure PersonaRec where
  container_name : String
  persona_type : String
  interface : String
  deriving Repr, DecidableEq

/-- The persistent state document `{personas, interfaces}` of
`PersonaManager` (the `last_updated` timestamp carries no logic).  Python
dict semantics: keys are unique and insertion-ordered, modelled as
association lists mutated through `setKey`/`eraseKey`. -/
structure MgrState where
  personas : List (String × PersonaRec)
  interfaces : List (String × AssignRec)
  deriving Repr, DecidableEq

/-- A Docker container as the manager sees it: id, name, and the PID of its
init process (`attrs.State.Pid`, 0 when not running). -/
structure Container where
  id : String
  name : String
  pid : Nat
  deriving Repr, DecidableEq

/-- The Docker daemon's view: the containers that currently exist. -/
structure World where
  containers : List Container
  deriving Repr, DecidableEq

/-- Docker `containers.get(key)`: resolves a container by id or by name,
`none` meaning `docker.errors.NotFound`. -/
def World.get (w : World) (key : String) : Option Container :=
  w.containers.find? (fun c => c.id == key || c.name == key)

/-- Docker `containers.create`: the new container exists afterwards. -/
def World.add (w : World) (c : Container) : World :=
  ⟨c :: w.containers⟩

/-- Docker `container.remove()` of the container with this id. -/
def World.removeId (w : World) (cid : String) : World :=
  ⟨w.containers.filter (fun c => c.id ≠ cid)⟩

/-- The id and name of every container matching
`containers.list(all=True, filters={'name': 'persona-'})` — the
`actual_containers` set built by `PersonaManager._cleanup_stale_state`. -/
def World.personaKeys (w : World) : List String :=
  (w.containers.filter (fun c => strStartsWith c.name "persona-")).foldr
    (fun c acc => c.id :: c.name :: acc) []

/-! ## manager_logic.py: stale-state reconciliation -/

/-- Staleness test of one persona record against the `actual_containers`
keys: neither its container id (the map key) nor its recorded container name
exists. -/
def personaStale (actual : List String) (p : String × PersonaRec) : Bool :=
  !(actual.contains p.1) && !(actual.contains p.2.container_name)

/-- Staleness test of one interface assignment: both the recorded container
id and container name are truthy and neither exists. -/
def ifaceStale (actual : List String) (p : String × AssignRec) : Bool :=
  p.2.container_id ≠ "" && !(actual.contains p.2.container_id) &&
  p.2.container_name ≠ "" && !(actual.contains p.2.container_name)

/-- Second pass of `_cleanup_stale_state`: for each stale persona key, delete
the interface entry of its recorded interface when that entry references the
same container id, then delete the persona entry. -/
def removeStalePersona (st : MgrState) (cid : String) : MgrState :=
  match st.personas.lookup cid with
  | some pr =>
    let st' :=
      if pr.interface ≠ "" &&
         ((st.interfaces.lookup pr.interface).any
           (fun a => a.container_id == cid)) then
        { st with interfaces := eraseKey st.interfaces pr.interface }
      else st
    { st' with personas := eraseKey st'.personas cid }
  | none => st

/-- Body of `PersonaManager._cleanup_stale_state` once the container listing
succeeded: collect the persona keys whose container no longer exists, remove
each with its matching interface entry, then remove every remaining interface
assignment whose recorded container id and name are both truthy and both
non-existent. -/
def cleanupCore (s : MgrState) (w : World) : MgrState :=
  let actual := w.personaKeys
  let personasToRemove := (s.personas.filter (personaStale actual)).map (·.1)
  let s1 := personasToRemove.foldl removeStalePersona s
  let ifacesToRemove := (s1.interfaces.filter (ifaceStale actual)).map (·.1)
  { s1 with interfaces := s1.interfaces.filter (fun p => !(ifacesToRemove.contains p.1)) }

/-- Embedding of `PersonaManager._cleanup_stale_state`.  `ok` is the success
of the Docker interactions that precede any mutation (client initialisation
and `containers.list`); on their failure the body is abandoned with the state
unchanged (errors are logged, never raised). -/
def cleanup_stale_state (s : MgrState) (w : World) (ok : Bool) : MgrState :=
  if !ok then s else cleanupCore s w

/-! ## manager_logic.py: start_persona -/

/-- The keys of `PersonaManager.PERSONA_CONFIGS`: the three known persona
types. -/
def personaTypes : List String := ["good", "bad", "wired"]

/-- The container name `start_persona` derives from type, interface and the
current epoch second: `persona-{type}-{interface}-{epoch}`. -/
def personaContainerName (ptype iface : String) (epoch : Nat) : String :=
  s!"persona-{ptype}-{iface}-{epoch}"

/-- The `container_exists` probe of `start_persona`'s availability check: the
recorded assignment is live when the Docker client is available and a truthy
recorded container id or (failing that) truthy recorded container name
resolves to an existing container. -/
def assignmentLive (w : World) (clientOk : Bool) (a : AssignRec) : Bool :=
  clientOk &&
  ((a.container_id ≠ "" && (w.get a.container_id).isSome) ||
   (a.container_name ≠ "" && (w.get a.container_name).isSome))

/-- Environment of one `PersonaManager.start_persona` call: Docker client
availability, success of the `containers.list` inside the nested stale-state
cleanup, the epoch used for the generated name, the id and PID Docker gives
the new container, and the outcomes of create, start, the interface
migration (with its diagnostic) and of the best-effort teardown. -/
structure StartEnv where
  clientOk : Bool
  listOk : Bool
  epoch : Nat
  newCid : String
  newPid : Nat
  createOk : Bool
  startOk : Bool
  moveOk : Bool
  moveMsg : String
  teardownOk : Bool
  deriving Repr, DecidableEq

/-- The `(success, message, container_id)` triple `start_persona` returns. -/
structure StartResult where
  success : Bool
  message : String
  container_id : Option String
  deriving Repr, DecidableEq

/-- Full outcome of one `start_persona` call: returned triple, resulting
persisted state and container world, and whether the call reached
`containers.create` / `container.start()`. -/
structure StartOutcome where
  res : StartResult
  state : MgrState
  world : World
  created : Bool
  started : Bool
  deriving Repr, DecidableEq

/-- Continuation of `start_persona` after the availability check, `s2` being
the state with any stale assignment of `iface` already dropped: create and
start the container, migrate the interface, tear the container down
best-effort on migration failure, record both state entries on success. -/
def startCreate (s2 : MgrState) (w : World) (ptype iface : String)
    (env : StartEnv) : StartOutcome :=
  let cname := personaContainerName ptype iface env.epoch
  if !env.clientOk then
    ⟨⟨false, "Docker client not available - check Docker socket permissions", none⟩,
      s2, w, false, false⟩
  else if !env.createOk then
    ⟨⟨false, "Persona image not found or Docker API error", none⟩, s2, w, false, false⟩
  else
    let w1 := w.add ⟨env.newCid, cname, env.newPid⟩
    if !env.startOk then
      ⟨⟨false, "Docker API error", none⟩, s2, w1, true, false⟩
    else if !env.moveOk then
      let w2 := if env.teardownOk then w1.removeId env.newCid else w1
      ⟨⟨false, "Failed to move interface: " ++ env.moveMsg, none⟩, s2, w2, true, true⟩
    else
      let s3 : MgrState :=
        { personas := setKey s2.personas env.newCid ⟨cname, ptype, iface⟩,
          interfaces := setKey s2.interfaces iface ⟨env.newCid, cname, ptype⟩ }
      ⟨⟨true, s!"Persona {ptype} started on {iface}", some env.newCid⟩, s3, w1, true, true⟩

/-- Embedding of `PersonaManager.start_persona` (the caller-supplied SSID and
password only populate container environment variables, so they are omitted).
Control flow follows the source: unknown type is rejected; stale state is
reconciled; an interface whose recorded assignment is live (container
existence actually probed) is rejected before any container is created, a
dead recorded assignment is deleted; then the rest of the call runs as
`startCreate`. -/
def start_persona (s : MgrState) (w : World) (ptype iface : String)
    (env : StartEnv) : StartOutcome :=
  if personaTypes.contains ptype then
    let s1 := cleanup_stale_state s w (env.clientOk && env.listOk)
    match s1.interfaces.lookup iface with
    | some ex =>
      if assignmentLive w env.clientOk ex then
        ⟨⟨false, s!"Interface {iface} already assigned to {ex.container_name}", none⟩,
          s1, w, false, false⟩
      else
        startCreate { s1 with interfaces := eraseKey s1.interfaces iface } w ptype iface env
    | none => startCreate s1 w ptype iface env
  else
    ⟨⟨false, s!"Unknown persona type: {ptype}", none⟩, s, w, false, false⟩

/-! ## manager_logic.py: stop_persona -/

/-- Environment of one `PersonaManager.stop_persona` call: Docker client
availability, the PID read by `container.reload()` (`none` when the reload
raises), and the outcomes of stop, of the interface return (its boolean is
ignored by the caller) and of `container.remove()`. -/
structure StopEnv where
  clientOk : Bool
  reloadPid : Option Nat
  stopOk : Bool
  returnOk : Bool
  removeOk : Bool
  deriving Repr, DecidableEq

/-- Full outcome of one `stop_persona` call: the returned `(success, message)`
pair, resulting state and world, and which side effects were attempted
(container stop, `return_to_host` with its PID, container removal). -/
structure StopOutcome where
  success : Bool
  message : String
  state : MgrState
  world : World
  stopped : Option String
  returned : Option (String × Nat)
  removed : Option String
  deriving Repr, DecidableEq

/-- The interface `stop_persona` resolves for a container: the first key of
the `interfaces` map whose record carries this container id; when the lookup
misses (or finds a falsy key) the hard-coded recovery fallback `"wlan_sim"`. -/
def resolvedInterface (s : MgrState) (c : Container) : String :=
  match s.interfaces.find? (fun p => p.2.container_id == c.id) with
  | some p => if p.1 ≠ "" then p.1 else "wlan_sim"
  | none => "wlan_sim"

/-- Tail of `stop_persona` after the container has been resolved: read the
PID, stop the container (errors swallowed), call `return_to_host` when a
positive PID was captured, remove the container (errors swallowed), then
delete the persona record and the resolved interface record from state and
return success unconditionally. -/
def stopResolved (s : MgrState) (w : World) (c : Container) (env : StopEnv) :
    StopOutcome :=
  let iface := resolvedInterface s c
  let returned :=
    match env.reloadPid with
    | some p => if 0 < p then some (iface, p) else none
    | none => none
  let w' := if env.removeOk then w.removeId c.id else w
  let s' : MgrState :=
    { personas := eraseKey s.personas c.id,
      interfaces := eraseKey s.interfaces iface }
  ⟨true, "Persona stopped and interface returned to host", s', w',
    some c.id, returned, some c.id⟩

/-- Resolution of the container `stop_persona` acts on: `containers.get` of
the truthy name argument, else of the truthy id argument (the source checks
the name first and never falls back from a failed name lookup to the id). -/
def resolveStopTarget (w : World) (cidArg cnameArg : Option String) :
    Option Container :=
  if truthy cnameArg then w.get (cnameArg.getD "")
  else if truthy cidArg then w.get (cidArg.getD "")
  else none

/-- Embedding of `PersonaManager.stop_persona`.  The Docker client is checked
first; with neither argument truthy the call fails with the explanatory
message and no side effect; an unresolvable container is `NotFound`.  After
resolution every failure of stop / interface return / remove is swallowed and
the state records are deleted regardless. -/
def stop_persona (s : MgrState) (w : World) (cidArg cnameArg : Option String)
    (env : StopEnv) : StopOutcome :=
  if !env.clientOk then
    ⟨false, "Docker client not available - check Docker socket permissions",
      s, w, none, none, none⟩
  else if truthy cnameArg || truthy cidArg then
    match resolveStopTarget w cidArg cnameArg with
    | none => ⟨false, "Container not found", s, w, none, none, none⟩
    | some c => stopResolved s w c env
  else
    ⟨false, "Must provide either container_id or container_name",
      s, w, none, none, none⟩

/-! ## app.py: interface listing endpoint -/

/-- Parse of `ip route show default` performed by `api_interfaces` (`none`
input meaning the subprocess raised): for each output line, whitespace-split
it, and on the first line where the token after a `"dev"` token exists,
return that token. -/
def parseDefaultRouteIface (routeOut : Option String) : Option String :=
  match routeOut with
  | none => none
  | some out =>
    (splitCh out '\n').findSome? (fun line =>
      let ps := pywords line
      match ps.findIdx? (fun t => t == "dev") with
      | some i => if i + 1 < ps.length then ps[i+1]? else none
      | none => none)

/-- One entry of the `/api/interfaces` response body. -/
structure IfaceEntry where
  name : String
  itype : String
  state : String
  available : Option Bool
  assignable : Bool
  protectedFlag : Bool
  reason : Option String
  deriving Repr, DecidableEq

/-- Metadata of one interface as `list_available_interfaces` hands it to the
endpoint: any of the fields the endpoint reads may be missing. -/
structure DiscInfo where
  itype : Option String
  state : Option String
  available : Option Bool
  assignable : Option Bool
  deriving Repr, DecidableEq

/-- Marking of the management interface applied inside `api_interfaces`: not
available, not assignable, protected, with the fixed reason text. -/
def markProtected (e : IfaceEntry) : IfaceEntry :=
  { e with available := some false, assignable := false, protectedFlag := true,
           reason := some "Management/default-route interface" }

/-- Handling of one `ip link show` line in the fallback ("basic mode") branch
of `api_interfaces`: a line containing a colon and `"wlan"` or `"eth"` yields
an entry keyed by the trimmed second colon-field, marked assignable, then
protected-marked when it is the default-route interface.  In the source the
dict insertion precedes the in-place protected marking of the same entry;
inserting the already-marked entry is equivalent. -/
def basicModeStep (protectedIface : Option String)
    (acc : List (String × IfaceEntry)) (line : String) :
    List (String × IfaceEntry) :=
  let parts := splitCh line ':'
  if parts.length > 1 && (containsSub line "wlan" || containsSub line "eth") then
    let ifc := pytrim (parts.getD 1 "")
    let st := if containsSub line "state UP" || containsSub line "UP" then "UP" else "DOWN"
    let e : IfaceEntry :=
      { name := ifc,
        itype := if containsSub ifc "wlan" then "wifi" else "ethernet",
        state := st, available := some true, assignable := true,
        protectedFlag := false, reason := none }
    let e' :=
      match protectedIface with
      | some p => if p ≠ "" && ifc == p then markProtected e else e
      | none => e
    setKey acc ifc e'
  else acc

/-- Fallback entry construction of `api_interfaces` when the interface
manager is unavailable: fold `basicModeStep` over the `ip link show` lines. -/
def basicModeEntries (linkOut : String) (protectedIface : Option String) :
    List (String × IfaceEntry) :=
  (splitCh linkOut '\n').foldl (basicModeStep protectedIface) []

/-- Normal-mode post-processing of `api_interfaces` over the map returned by
`list_available_interfaces`: fill in missing `state` / `type` / `assignable`
fields with their defaults, then mark the management (default-route)
interface. -/
def normalModeEntry (protectedIface : Option String) (nm : String)
    (info : DiscInfo) : IfaceEntry :=
  let e : IfaceEntry :=
    { name := nm,
      itype := info.itype.getD (if containsSub nm "wlan" then "wifi" else "ethernet"),
      state := info.state.getD "unknown",
      available := info.available,
      assignable := info.assignable.getD true,
      protectedFlag := false, reason := none }
  match protectedIface with
  | some p => if p ≠ "" && nm == p then markProtected e else e
  | none => e

/-- Embedding of the `/api/interfaces` endpoint body (`api_interfaces`):
determine the default-route interface, then produce the response entries
either through the basic fallback parse (interface manager unavailable) or by
post-processing the discovery map. -/
def api_interfaces (routeOut : Option String) (managerUp : Bool)
    (linkOut : String) (discovered : List (String × DiscInfo)) : List IfaceEntry :=
  let protectedIface := parseDefaultRouteIface routeOut
  if !managerUp then
    (basicModeEntries linkOut protectedIface).map (·.2)
  else
    discovered.map (fun p => normalModeEntry protectedIface p.1 p.2)

/-! ## app.py: start-persona endpoint validation -/

/-- An error response of the start endpoint: HTTP status and message. -/
structure ApiError where
  status : Nat
  message : String
  deriving Repr, DecidableEq

/-- Credential merge of `api_start_persona`: when the request-supplied SSID or
password is falsy, both are replaced by the stored two-line config
(`read_config`, which yields empty strings when the file is missing). -/
def readConfigMerge (ssid password : Option String) (cfgSsid cfgPassword : String) :
    Option String × Option String :=
  if !truthy ssid || !truthy password then (some cfgSsid, some cfgPassword)
  else (ssid, password)

/-- Embedding of the validation prefix of the `api_start_persona` endpoint,
everything the source runs before `persona_manager.start_persona`: require
truthy `persona_type` and `interface`; merge credentials with the stored
config; wired personas proceed with no credentials, bad personas require only
a truthy effective SSID (their password is discarded by design), good
personas require both truthy effective SSID and password; an unknown type
falls through to the manager (which rejects it).  A `.error` is an HTTP 4xx
response issued before any container-side effect. -/
def api_validate (persona_type interface ssid password : Option String)
    (cfgSsid cfgPassword : String) :
    Except ApiError (String × String × Option String × Option String) :=
  if !truthy persona_type || !truthy interface then
    .error ⟨400, "persona_type and interface required"⟩
  else
    let pt := persona_type.getD ""
    let ifc := interface.getD ""
    let m := readConfigMerge ssid password cfgSsid cfgPassword
    if pt == "wired" then .ok (pt, ifc, none, none)
    else if pt == "bad" then
      if !truthy m.1 then .error ⟨400, "SSID required for bad persona"⟩
      else .ok (pt, ifc, m.1, none)
    else if pt == "good" then
      if !truthy m.1 || !truthy m.2 then
        .error ⟨400, "SSID and password required for good persona"⟩
      else .ok (pt, ifc, m.1, m.2)
    else .ok (pt, ifc, m.1, m.2)

/-- Response of the start endpoint together with the resulting state, world
and whether a container creation was reached. -/
structure ApiStartOutcome where
  status : Nat
  success : Bool
  message : String
  state : MgrState
  world : World
  created : Bool
  deriving Repr, DecidableEq

/-- Embedding of the `api_start_persona` endpoint: run the validation prefix;
a validation error is returned as-is with no state or container-side effect;
otherwise `start_persona` runs and its result is wrapped as HTTP 200 / 500. -/
def api_start_persona (s : MgrState) (w : World)
    (persona_type interface ssid password : Option String)
    (cfgSsid cfgPassword : String) (env : StartEnv) : ApiStartOutcome :=
  match api_validate persona_type interface ssid password cfgSsid cfgPassword with
  | .error e => ⟨e.status, false, e.message, s, w, false⟩
  | .ok (pt, ifc, _, _) =>
    let o := start_persona s w pt ifc env
    if o.res.success then ⟨200, true, o.res.message, o.state, o.world, o.created⟩
    else ⟨500, false, o.res.message, o.state, o.world, o.created⟩

/-! ## Reachable states of the lifecycle manager -/

/-- The state document a fresh install starts from (`_load_state` with no
file on disk): empty persona and interface maps. -/
def MgrState.init : MgrState := ⟨[], []⟩

/-- The core assignment invariant: across the `interfaces` map, interface
names (keys) are pairwise distinct and so are the referenced container ids —
at most one assignment per interface and at most one per container.  This is
stated over all recorded assignments, which is stronger than over the live
ones only. -/
def assignInv (s : MgrState) : Prop :=
  s.interfaces.Pairwise (fun a b => a.1 ≠ b.1 ∧ a.2.container_id ≠ b.2.container_id)

/-- One observable transition of the manager: a `start_persona` call (Docker
hands out a container id not referenced by any recorded assignment — ids are
fresh 64-hex digests, never reused), a `stop_persona` call, a reconciliation
run, or an external change of the container world (containers dying or being
created outside the manager), which never touches the state document. -/
inductive Step : MgrState × World → MgrState × World → Prop where
  | start : ∀ (s : MgrState) (w : World) (ptype iface : String) (env : StartEnv),
      (∀ e ∈ s.interfaces, e.2.container_id ≠ env.newCid) →
      Step (s, w) ((start_persona s w ptype iface env).state,
                   (start_persona s w ptype iface env).world)
  | stop : ∀ (s : MgrState) (w : World) (cidArg cnameArg : Option String)
      (env : StopEnv),
      Step (s, w) ((stop_persona s w cidArg cnameArg env).state,
                   (stop_persona s w cidArg cnameArg env).world)
  | reconcile : ∀ (s : MgrState) (w : World) (ok : Bool),
      Step (s, w) (cleanup_stale_state s w ok, w)
  | drift : ∀ (s : MgrState) (w w' : World), Step (s, w) (s, w')

/-- States reachable from a fresh install under any container world. -/
def Reachable (w0 : World) (p : MgrState × World) : Prop :=
  Relation.ReflTransGen Step (MgrState.init, w0) p

/-! ## Association-list lemmas -/

theorem mem_setKey {β : Type} {l : List (String × β)} {k : String} {v : β}
    {e : String × β} (h : e ∈ setKey l k v) : e = (k, v) ∨ e ∈ l := by
  induction l with
  | nil => simpa [setKey] using h
  | cons hd tl ih =>
    simp only [setKey] at h
    split at h
    · rcases List.mem_cons.mp h with h | h
      · exact Or.inl h
      · exact Or.inr (List.mem_cons_of_mem _ h)
    · rcases List.mem_cons.mp h with h | h
      · exact Or.inr (h ▸ List.mem_cons_self _ _)
      · rcases ih h with h' | h'
        · exact Or.inl h'
        · exact Or.inr (List.mem_cons_of_mem _ h')

theorem setKey_append {β : Type} {l : List (String × β)} {k : String} {v : β}
    (h : ∀ e ∈ l, e.1 ≠ k) : setKey l k v = l ++ [(k, v)] := by
  induction l with
  | nil => rfl
  | cons hd tl ih =>
    simp only [setKey]
    rw [if_neg (h hd (List.mem_cons_self _ _)),
        ih (fun e he => h e (List.mem_cons_of_mem _ he))]
    rfl

theorem mem_eraseKey {β : Type} {l : List (String × β)} {k : String}
    {e : String × β} : e ∈ eraseKey l k ↔ e ∈ l ∧ e.1 ≠ k := by
  simp [eraseKey, List.mem_filter]

theorem eraseKey_sublist {β : Type} (l : List (String × β)) (k : String) :
    List.Sublist (eraseKey l k) l :=
  List.filter_sublist _

theorem lookup_none_forall {β : Type} {l : List (String × β)} {k : String}
    (h : l.lookup k = none) : ∀ e ∈ l, e.1 ≠ k := by
  induction l with
  | nil => intro e he; cases he
  | cons hd tl ih =>
    obtain ⟨hd1, hd2⟩ := hd
    simp only [List.lookup] at h
    intro e he
    cases hbeq : (k == hd1) with
    | true => rw [hbeq] at h; cases h
    | false =>
      rw [hbeq] at h
      rcases List.mem_cons.mp he with he | he
      · subst he
        exact fun hk => by simp only [beq_eq_false_iff_ne] at hbeq; exact hbeq hk.symm
      · exact ih h e he

theorem forall_lookup_none {β : Type} {l : List (String × β)} {k : String}
    (h : ∀ e ∈ l, e.1 ≠ k) : l.lookup k = none := by
  induction l with
  | nil => rfl
  | cons hd tl ih =>
    obtain ⟨hd1, hd2⟩ := hd
    have h1 : hd1 ≠ k := h (hd1, hd2) (List.mem_cons_self _ _)
    have h2 : (k == hd1) = false := beq_eq_false_iff_ne.mpr (Ne.symm h1)
    simp only [List.lookup, h2]
    exact ih (fun e he => h e (List.mem_cons_of_mem _ he))

theorem lookup_some_mem {β : Type} {l : List (String × β)} {k : String} {v : β}
    (h : l.lookup k = some v) : (k, v) ∈ l := by
  induction l with
  | nil => cases h
  | cons hd tl ih =>
    obtain ⟨hd1, hd2⟩ := hd
    simp only [List.lookup] at h
    cases hbeq : (k == hd1) with
    | true =>
      rw [hbeq] at h
      cases h
      exact (beq_iff_eq.mp hbeq) ▸ List.mem_cons_self _ _
    | false =>
      rw [hbeq] at h
      exact List.mem_cons_of_mem _ (ih h)

theorem eraseKey_lookup_none {β : Type} (l : List (String × β)) (k : String) :
    (eraseKey l k).lookup k = none :=
  forall_lookup_none (fun _ he => (mem_eraseKey.mp he).2)

/-! ## Reconciliation lemmas -/

theorem removeStalePersona_interfaces_sublist (st : MgrState) (cid : String) :
    List.Sublist (removeStalePersona st cid).interfaces st.interfaces := by
  unfold removeStalePersona
  split
  · split
    · exact List.filter_sublist _
    · exact List.Sublist.refl _
  · exact List.Sublist.refl _

theorem removeStalePersona_personas (st : MgrState) (cid : String) :
    ∀ e ∈ (removeStalePersona st cid).personas, e ∈ st.personas ∧ e.1 ≠ cid := by
  unfold removeStalePersona
  split
  · intro e he
    split at he
    · exact mem_eraseKey.mp he
    · exact mem_eraseKey.mp he
  · next hl =>
    intro e he
    exact ⟨he, lookup_none_forall hl e he⟩

theorem foldl_remove_interfaces (L : List String) :
    ∀ st : MgrState,
      List.Sublist (L.foldl removeStalePersona st).interfaces st.interfaces := by
  induction L with
  | nil => intro st; exact List.Sublist.refl _
  | cons c L ih =>
    intro st
    exact (ih (removeStalePersona st c)).trans
      (removeStalePersona_interfaces_sublist st c)

theorem foldl_remove_personas (L : List String) :
    ∀ st : MgrState, ∀ e ∈ (L.foldl removeStalePersona st).personas,
      e ∈ st.personas ∧ e.1 ∉ L := by
  induction L with
  | nil =>
    intro st e he
    exact ⟨he, List.not_mem_nil _⟩
  | cons c L ih =>
    intro st e he
    obtain ⟨h1, h2⟩ := ih (removeStalePersona st c) e he
    obtain ⟨h3, h4⟩ := removeStalePersona_personas st c e h1
    refine ⟨h3, fun hm => ?_⟩
    rcases List.mem_cons.mp hm with hm | hm
    · exact h4 hm
    · exact h2 hm

theorem cleanupCore_interfaces_sublist (s : MgrState) (w : World) :
    List.Sublist (cleanupCore s w).interfaces s.interfaces :=
  (List.filter_sublist _).trans (foldl_remove_interfaces _ s)

theorem cleanup_interfaces_sublist (s : MgrState) (w : World) (ok : Bool) :
    List.Sublist (cleanup_stale_state s w ok).interfaces s.interfaces := by
  unfold cleanup_stale_state
  split
  · exact List.Sublist.refl _
  · exact cleanupCore_interfaces_sublist s w

theorem cleanup_interfaces_mem {s : MgrState} {w : World} {ok : Bool}
    {e : String × AssignRec} (h : e ∈ (cleanup_stale_state s w ok).interfaces) :
    e ∈ s.interfaces :=
  (cleanup_interfaces_sublist s w ok).mem h

theorem cleanupCore_no_stale_persona (s : MgrState) (w : World) :
    ∀ e ∈ (cleanupCore s w).personas,
      personaStale w.personaKeys e = false := by
  intro e he
  simp only [cleanupCore] at he
  obtain ⟨h1, h2⟩ := foldl_remove_personas _ _ e he
  cases hst : personaStale w.personaKeys e with
  | false => rfl
  | true =>
    exact absurd (List.mem_map.mpr ⟨e, List.mem_filter.mpr ⟨h1, hst⟩, rfl⟩) h2

theorem cleanupCore_no_stale_iface (s : MgrState) (w : World) :
    ∀ e ∈ (cleanupCore s w).interfaces,
      ifaceStale w.personaKeys e = false := by
  intro e he
  simp only [cleanupCore] at he
  have h1 := List.mem_filter.mp he
  cases hst : ifaceStale w.personaKeys e with
  | false => rfl
  | true =>
    exfalso
    have hmem : e.1 ∈ ((((s.personas.filter (personaStale w.personaKeys)).map
        (·.1)).foldl removeStalePersona s).interfaces.filter
        (ifaceStale w.personaKeys)).map (·.1) :=
      List.mem_map.mpr ⟨e, List.mem_filter.mpr ⟨h1.1, hst⟩, rfl⟩
    have h2 := h1.2
    rw [Bool.not_eq_eq_eq_not, Bool.not_true] at h2
    have h3 : (((((s.personas.filter (personaStale w.personaKeys)).map
        (·.1)).foldl removeStalePersona s).interfaces.filter
        (ifaceStale w.personaKeys)).map (·.1)).contains e.1 = true :=
      List.elem_iff.mpr hmem
    rw [h2] at h3
    cases h3

theorem cleanup_true (s : MgrState) (w : World) :
    cleanup_stale_state s w true = cleanupCore s w := rfl

theorem cleanup_false (s : MgrState) (w : World) :
    cleanup_stale_state s w false = s := rfl

theorem cleanupCore_idem (s : MgrState) (w : World) :
    cleanupCore (cleanupCore s w) w = cleanupCore s w := by
  have hA := cleanupCore_no_stale_persona s w
  have hB := cleanupCore_no_stale_iface s w
  generalize hT : cleanupCore s w = t at hA hB ⊢
  have hA' : t.personas.filter (personaStale w.personaKeys) = [] :=
    List.filter_eq_nil_iff.mpr (fun e he => by simp [hA e he])
  have hB' : t.interfaces.filter (ifaceStale w.personaKeys) = [] :=
    List.filter_eq_nil_iff.mpr (fun e he => by simp [hB e he])
  simp only [cleanupCore, hA', hB', List.map_nil, List.foldl_nil]
  simp [List.filter_true]

/-! ## Preservation of the assignment invariant -/

theorem startCreate_inv (s2 : MgrState) (w : World) (ptype iface : String)
    (env : StartEnv) (hinv : assignInv s2)
    (hkey : ∀ e ∈ s2.interfaces, e.1 ≠ iface)
    (hcid : ∀ e ∈ s2.interfaces, e.2.container_id ≠ env.newCid) :
    assignInv (startCreate s2 w ptype iface env).state := by
  unfold startCreate
  split
  · exact hinv
  · split
    · exact hinv
    · split
      · exact hinv
      · split
        · exact hinv
        · show List.Pairwise _ (setKey s2.interfaces iface _)
          rw [setKey_append hkey, List.pairwise_append]
          refine ⟨hinv, List.pairwise_singleton _ _, ?_⟩
          intro a ha b hb
          rw [List.mem_singleton] at hb
          subst hb
          exact ⟨hkey a ha, hcid a ha⟩

theorem start_persona_inv (s : MgrState) (w : World) (ptype iface : String)
    (env : StartEnv) (hinv : assignInv s)
    (hfresh : ∀ e ∈ s.interfaces, e.2.container_id ≠ env.newCid) :
    assignInv (start_persona s w ptype iface env).state := by
  simp only [start_persona]
  split
  · split
    · next ex hl =>
      split
      · exact List.Pairwise.sublist (cleanup_interfaces_sublist s w _) hinv
      · apply startCreate_inv
        · exact List.Pairwise.sublist
            ((eraseKey_sublist _ _).trans (cleanup_interfaces_sublist s w _)) hinv
        · exact fun e he => (mem_eraseKey.mp he).2
        · exact fun e he =>
            hfresh e (cleanup_interfaces_mem (mem_eraseKey.mp he).1)
    · next hl =>
      apply startCreate_inv
      · exact List.Pairwise.sublist (cleanup_interfaces_sublist s w _) hinv
      · exact lookup_none_forall hl
      · exact fun e he => hfresh e (cleanup_interfaces_mem he)
  · exact hinv

theorem stop_persona_inv (s : MgrState) (w : World)
    (cidArg cnameArg : Option String) (env : StopEnv) (hinv : assignInv s) :
    assignInv (stop_persona s w cidArg cnameArg env).state := by
  unfold stop_persona
  split
  · exact hinv
  · split
    · split
      · exact hinv
      · exact List.Pairwise.sublist (eraseKey_sublist _ _) hinv
    · exact hinv

theorem step_inv {p q : MgrState × World} (h : Step p q)
    (hinv : assignInv p.1) : assignInv q.1 := by
  cases h with
  | start s w ptype iface env hfresh =>
    exact start_persona_inv s w ptype iface env hinv hfresh
  | stop s w cidArg cnameArg env =>
    exact stop_persona_inv s w cidArg cnameArg env hinv
  | reconcile s w ok =>
    exact List.Pairwise.sublist (cleanup_interfaces_sublist s w ok) hinv
  | drift s w w' => exact hinv

theorem reachable_inv {w0 : World} {p : MgrState × World}
    (h : Reachable w0 p) : assignInv p.1 := by
  induction h with
  | refl => exact List.Pairwise.nil
  | tail _ hstep ih => exact step_inv hstep ih

/-! ## Claim theorems -/

/-- C4: Reconciliation (`_cleanup_stale_state`) is idempotent and total:
run twice against the same container world with no intervening mutation, the
second run changes nothing; and when the Docker interactions fail the state
is returned unchanged (errors are logged and treated as no changes made, the
embedding is a total function, so nothing is raised to the caller). -/
theorem C4_reconciliation_idempotent :
    (∀ (s : MgrState) (w : World) (ok : Bool),
      cleanup_stale_state (cleanup_stale_state s w ok) w ok
        = cleanup_stale_state s w ok) ∧
    (∀ (s : MgrState) (w : World), cleanup_stale_state s w false = s) := by
  constructor
  · intro s w ok
    cases ok with
    | false => rfl
    | true => simpa [cleanup_true] using cleanupCore_idem s w
  · intro s w
    rfl

/-- C5: in every state reachable through `start_persona`, `stop_persona` and
reconciliation (under Docker's guarantee that a newly created container's id
is never one a recorded assignment already references), the `interfaces` map
holds at most one assignment per interface name and at most one per container
id; and `start_persona` rejects an interface whose recorded assignment is
live — container existence actually probed — before any container is
created, leaving the container world untouched. -/
theorem C5_unique_assignment_invariant :
    (∀ (w0 : World) (s : MgrState) (w : World), Reachable w0 (s, w) →
      s.interfaces.Pairwise
        (fun a b => a.1 ≠ b.1 ∧ a.2.container_id ≠ b.2.container_id)) ∧
    (∀ (s : MgrState) (w : World) (ptype iface : String) (env : StartEnv)
       (ex : AssignRec),
      (cleanup_stale_state s w (env.clientOk && env.listOk)).interfaces.lookup iface
        = some ex →
      assignmentLive w env.clientOk ex = true →
      (start_persona s w ptype iface env).res.success = false ∧
      (start_persona s w ptype iface env).created = false ∧
      (start_persona s w ptype iface env).world = w) := by
  constructor
  · intro w0 s w h
    exact reachable_inv h
  · intro s w ptype iface env ex hl hlive
    simp only [start_persona]
    split
    · rw [hl]
      simp [hlive]
    · exact ⟨rfl, rfl, rfl⟩

/-- C5 witness: the fresh install satisfies the invariant, and a start
request for an interface whose recorded container exists is rejected with the
container world unchanged. -/
theorem C5_unique_assignment_invariant_witness :
    (MgrState.init).interfaces.Pairwise
      (fun a b => a.1 ≠ b.1 ∧ a.2.container_id ≠ b.2.container_id) ∧
    ((start_persona
        ⟨[("cid1", ⟨"persona-good-wlan1-1", "good", "wlan1"⟩)],
         [("wlan1", ⟨"cid1", "persona-good-wlan1-1", "good"⟩)]⟩
        ⟨[⟨"cid1", "persona-good-wlan1-1", 7⟩]⟩ "good" "wlan1"
        ⟨true, true, 2, "cid2", 9, true, true, true, "", true⟩).res.success = false ∧
     (start_persona
        ⟨[("cid1", ⟨"persona-good-wlan1-1", "good", "wlan1"⟩)],
         [("wlan1", ⟨"cid1", "persona-good-wlan1-1", "good"⟩)]⟩
        ⟨[⟨"cid1", "persona-good-wlan1-1", 7⟩]⟩ "good" "wlan1"
        ⟨true, true, 2, "cid2", 9, true, true, true, "", true⟩).created = false ∧
     (start_persona
        ⟨[("cid1", ⟨"persona-good-wlan1-1", "good", "wlan1"⟩)],
         [("wlan1", ⟨"cid1", "persona-good-wlan1-1", "good"⟩)]⟩
        ⟨[⟨"cid1", "persona-good-wlan1-1", 7⟩]⟩ "good" "wlan1"
        ⟨true, true, 2, "cid2", 9, true, true, true, "", true⟩).world
       = ⟨[⟨"cid1", "persona-good-wlan1-1", 7⟩]⟩) :=
  ⟨C5_unique_assignment_invariant.1 ⟨[]⟩ MgrState.init ⟨[]⟩
      Relation.ReflTransGen.refl,
   C5_unique_assignment_invariant.2
      ⟨[("cid1", ⟨"persona-good-wlan1-1", "good", "wlan1"⟩)],
       [("wlan1", ⟨"cid1", "persona-good-wlan1-1", "good"⟩)]⟩
      ⟨[⟨"cid1", "persona-good-wlan1-1", 7⟩]⟩ "good" "wlan1"
      ⟨true, true, 2, "cid2", 9, true, true, true, "", true⟩
      ⟨"cid1", "persona-good-wlan1-1", "good"⟩
      (by decide) (by decide)⟩

/-- C10: a `stop_persona` call with neither a truthy container id nor a
truthy container name returns failure with an explanatory message and has no
side effect at all: state and world are unchanged and no stop, interface
return, or removal is attempted. -/
theorem C10_stop_without_target_no_effect :
    ∀ (s : MgrState) (w : World) (env : StopEnv),
      stop_persona s w none none env =
        ⟨false,
         if env.clientOk then "Must provide either container_id or container_name"
         else "Docker client not available - check Docker socket permissions",
         s, w, none, none, none⟩ := by
  intro s w env
  cases hc : env.clientOk <;> simp [stop_persona, hc, truthy]

theorem World.get_none_mem {w : World} {k : String} (h : w.get k = none) :
    ∀ c ∈ w.containers, c.id ≠ k ∧ c.name ≠ k := by
  intro c hc
  have h1 := List.find?_eq_none.mp h c hc
  simpa using h1

theorem teardown_get_none {w : World} {k nm : String} {pid : Nat}
    (h : w.get k = none) :
    ((w.add ⟨k, nm, pid⟩).removeId k).get k = none := by
  rw [World.get, List.find?_eq_none]
  intro c hc
  have hc' := List.mem_filter.mp hc
  rcases List.mem_cons.mp hc'.1 with h1 | h1
  · exfalso
    have h2 := hc'.2
    rw [h1] at h2
    simp at h2
  · obtain ⟨hid, hname⟩ := World.get_none_mem h c h1
    simp [hid, hname]

/-- Characterisation of `startCreate` when the container was created and
started but the migration failed. -/
theorem startCreate_moveFail (s2 : MgrState) (w : World) (ptype iface : String)
    (env : StartEnv) (hmove : env.moveOk = false)
    (hstarted : (startCreate s2 w ptype iface env).started = true) :
    startCreate s2 w ptype iface env =
      ⟨⟨false, "Failed to move interface: " ++ env.moveMsg, none⟩, s2,
        (if env.teardownOk then
          (w.add ⟨env.newCid, personaContainerName ptype iface env.epoch,
            env.newPid⟩).removeId env.newCid
         else w.add ⟨env.newCid, personaContainerName ptype iface env.epoch,
            env.newPid⟩), true, true⟩ := by
  cases hc : env.clientOk <;> cases hcr : env.createOk <;>
    cases hst : env.startOk <;> simp_all [startCreate]

/-- C2: whenever `start_persona` created and started the container but the
interface migration failed (and the best-effort teardown's own Docker calls
succeed), the call returns failure carrying the migration diagnostic, hands
back no container id, the just-created container no longer exists, and the
interface gained no assignment entry. -/
theorem C2_migration_failure_teardown :
    ∀ (s : MgrState) (w : World) (ptype iface : String) (env : StartEnv),
      env.moveOk = false → w.get env.newCid = none →
      (start_persona s w ptype iface env).started = true →
      (start_persona s w ptype iface env).res.success = false ∧
      (start_persona s w ptype iface env).res.message
        = "Failed to move interface: " ++ env.moveMsg ∧
      (start_persona s w ptype iface env).res.container_id = none ∧
      (env.teardownOk = true →
        ((start_persona s w ptype iface env).world).get env.newCid = none) ∧
      ((start_persona s w ptype iface env).state).interfaces.lookup iface
        = none := by
  intro s w ptype iface env hmove hfresh hstarted
  simp only [start_persona] at hstarted ⊢
  cases hty : personaTypes.contains ptype with
  | false =>
    rw [hty] at hstarted
    simp at hstarted
  | true =>
    rw [hty] at hstarted
    simp only [eq_self_iff_true, if_true] at hstarted ⊢
    cases hl : (cleanup_stale_state s w (env.clientOk && env.listOk)).interfaces.lookup
        iface with
    | some ex =>
      rw [hl] at hstarted
      dsimp only at hstarted ⊢
      cases hliv : assignmentLive w env.clientOk ex with
      | true =>
        rw [hliv] at hstarted
        simp at hstarted
      | false =>
        rw [hliv] at hstarted
        simp only [Bool.false_eq_true, if_false] at hstarted ⊢
        rw [startCreate_moveFail _ w ptype iface env hmove hstarted]
        refine ⟨rfl, rfl, rfl, fun htd => ?_, eraseKey_lookup_none _ _⟩
        simp only [htd, if_true]
        exact teardown_get_none hfresh
    | none =>
      rw [hl] at hstarted
      dsimp only at hstarted ⊢
      rw [startCreate_moveFail _ w ptype iface env hmove hstarted]
      refine ⟨rfl, rfl, rfl, fun htd => ?_, hl⟩
      simp only [htd, if_true]
      exact teardown_get_none hfresh

/-- C2 witness: a concrete start of a `good` persona on `wlan1` whose
migration fails, from an empty state and an empty container world. -/
theorem C2_migration_failure_teardown_witness :
    (start_persona MgrState.init ⟨[]⟩ "good" "wlan1"
      ⟨true, true, 3, "cidX", 11, true, true, false, "no phy", true⟩).res.success
        = false ∧
    (start_persona MgrState.init ⟨[]⟩ "good" "wlan1"
      ⟨true, true, 3, "cidX", 11, true, true, false, "no phy", true⟩).res.message
        = "Failed to move interface: no phy" ∧
    (start_persona MgrState.init ⟨[]⟩ "good" "wlan1"
      ⟨true, true, 3, "cidX", 11, true, true, false, "no phy", true⟩).res.container_id
        = none ∧
    ((start_persona MgrState.init ⟨[]⟩ "good" "wlan1"
      ⟨true, true, 3, "cidX", 11, true, true, false, "no phy", true⟩).world).get "cidX"
        = none ∧
    ((start_persona MgrState.init ⟨[]⟩ "good" "wlan1"
      ⟨true, true, 3, "cidX", 11, true, true, false, "no phy", true⟩).state).interfaces.lookup
        "wlan1" = none := by
  have h := C2_migration_failure_teardown MgrState.init ⟨[]⟩ "good" "wlan1"
    ⟨true, true, 3, "cidX", 11, true, true, false, "no phy", true⟩
    (by decide) (by decide) (by decide)
  exact ⟨h.1, h.2.1, h.2.2.1, h.2.2.2.1 (by decide), h.2.2.2.2⟩

/-- C3: every completed (successful) `stop_persona` call deletes both the
persona record and the interface assignment record of the resolved container
from the persisted state, regardless of whether the container stop, the
interface return, or the removal succeeded (the call quantifies over all
their outcomes); the resolved interface no longer appears in the assignment
map, and — when the pre-state held at most one assignment per container and
no falsy interface key — no assignment referencing the stopped container
remains. -/
theorem C3_stop_clears_state :
    ∀ (s : MgrState) (w : World) (cidArg cnameArg : Option String)
      (env : StopEnv) (c : Container),
      env.clientOk = true →
      resolveStopTarget w cidArg cnameArg = some c →
      (stop_persona s w cidArg cnameArg env).success = true ∧
      ((stop_persona s w cidArg cnameArg env).state).personas.lookup c.id
        = none ∧
      (∀ e ∈ ((stop_persona s w cidArg cnameArg env).state).interfaces,
        e.1 ≠ resolvedInterface s c) ∧
      ((∀ e ∈ s.interfaces, e.1 ≠ "") →
       s.interfaces.Pairwise (fun a b => a.2.container_id ≠ b.2.container_id) →
       ∀ e ∈ ((stop_persona s w cidArg cnameArg env).state).interfaces,
         e.2.container_id ≠ c.id) := by
  intro s w cidArg cnameArg env c hclient hres
  have htr : (truthy cnameArg || truthy cidArg) = true := by
    cases h1 : truthy cnameArg <;> cases h2 : truthy cidArg <;>
      simp_all [resolveStopTarget]
  have hstop : stop_persona s w cidArg cnameArg env = stopResolved s w c env := by
    simp only [stop_persona, hclient, Bool.not_true, Bool.false_eq_true, if_false,
      htr, eq_self_iff_true, if_true]
    rw [hres]
  rw [hstop]
  unfold stopResolved
  refine ⟨rfl, eraseKey_lookup_none _ _, fun e he => (mem_eraseKey.mp he).2, ?_⟩
  intro hkeys hpw e he hcid
  obtain ⟨hes, hne⟩ := mem_eraseKey.mp he
  cases hfind : s.interfaces.find? (fun p => p.2.container_id == c.id) with
  | none =>
    have hnone := List.find?_eq_none.mp hfind e hes
    simp [hcid] at hnone
  | some p0 =>
    have hp0pred := List.find?_some hfind
    have hp0mem := List.mem_of_find?_eq_some hfind
    have hp0cid : p0.2.container_id = c.id := by simpa using hp0pred
    have hkey0 : p0.1 ≠ "" := hkeys p0 hp0mem
    have hri : resolvedInterface s c = p0.1 := by
      simp [resolvedInterface, hfind, hkey0]
    rw [hri] at hne
    have hne' : e ≠ p0 := fun hEq => hne (by rw [hEq])
    have hsym : Symmetric
        (fun a b : String × AssignRec => a.2.container_id ≠ b.2.container_id) :=
      fun a b hab h => hab h.symm
    exact (List.Pairwise.forall hsym hpw hes hp0mem hne') (by rw [hcid, hp0cid])

/-- C3 witness: stopping a concrete persona container by id really removes
both records. -/
theorem C3_stop_clears_state_witness :
    (stop_persona
      ⟨[("cid1", ⟨"persona-bad-wlan1-4", "bad", "wlan1"⟩)],
       [("wlan1", ⟨"cid1", "persona-bad-wlan1-4", "bad"⟩)]⟩
      ⟨[⟨"cid1", "persona-bad-wlan1-4", 12⟩]⟩ (some "cid1") none
      ⟨true, some 12, false, false, true⟩).success = true ∧
    ((stop_persona
      ⟨[("cid1", ⟨"persona-bad-wlan1-4", "bad", "wlan1"⟩)],
       [("wlan1", ⟨"cid1", "persona-bad-wlan1-4", "bad"⟩)]⟩
      ⟨[⟨"cid1", "persona-bad-wlan1-4", 12⟩]⟩ (some "cid1") none
      ⟨true, some 12, false, false, true⟩).state).personas.lookup "cid1"
        = none ∧
    (∀ e ∈ ((stop_persona
      ⟨[("cid1", ⟨"persona-bad-wlan1-4", "bad", "wlan1"⟩)],
       [("wlan1", ⟨"cid1", "persona-bad-wlan1-4", "bad"⟩)]⟩
      ⟨[⟨"cid1", "persona-bad-wlan1-4", 12⟩]⟩ (some "cid1") none
      ⟨true, some 12, false, false, true⟩).state).interfaces,
      e.1 ≠ resolvedInterface
        ⟨[("cid1", ⟨"persona-bad-wlan1-4", "bad", "wlan1"⟩)],
         [("wlan1", ⟨"cid1", "persona-bad-wlan1-4", "bad"⟩)]⟩
        ⟨"cid1", "persona-bad-wlan1-4", 12⟩) := by
  have h := C3_stop_clears_state
    ⟨[("cid1", ⟨"persona-bad-wlan1-4", "bad", "wlan1"⟩)],
     [("wlan1", ⟨"cid1", "persona-bad-wlan1-4", "bad"⟩)]⟩
    ⟨[⟨"cid1", "persona-bad-wlan1-4", 12⟩]⟩ (some "cid1") none
    ⟨true, some 12, false, false, true⟩ ⟨"cid1", "persona-bad-wlan1-4", 12⟩
    (by decide) (by decide)
  exact ⟨h.1, h.2.1, h.2.2.1⟩

/-- C1: the claim fails on the code and the spec itself flags the behaviour
as a bug — when `iw dev <iface> info` succeeds but its output carries no
wiphy number, `get_phy_name` silently falls back to `"phy0"` instead of
failing, and `move_to_container` proceeds to move radio `phy0` and reports
success, rather than failing without moving anything. -/
theorem C1_phy_fallback_bug :
    get_phy_name (Outcome.ok "Interface wlan1\n\ttype managed") = some "phy0" ∧
    (move_to_container "wlan1" "persona-good-wlan1-9" "wlan_sim"
      ⟨true, some 1234, Outcome.ok "Interface wlan1\n\ttype managed",
        Outcome.ok "", Outcome.ok "", Outcome.ok "3: wlan1: <BROADCAST>",
        Outcome.ok "", Outcome.ok ""⟩).success = true ∧
    (move_to_container "wlan1" "persona-good-wlan1-9" "wlan_sim"
      ⟨true, some 1234, Outcome.ok "Interface wlan1\n\ttype managed",
        Outcome.ok "", Outcome.ok "", Outcome.ok "3: wlan1: <BROADCAST>",
        Outcome.ok "", Outcome.ok ""⟩).movedPhy = some "phy0" := by decide

/-- C6 counterexample: a call in which the radio move succeeded and the
in-container rename then fails by raising a timeout returns the error without
attempting the compensating move back to the host. -/
theorem C6_no_compensation_on_timeout :
    (move_to_container "wlan1" "persona-good-wlan1-5" "wlan_sim"
      ⟨true, some 77, Outcome.ok "Interface wlan1\n\twiphy 1", Outcome.ok "",
        Outcome.ok "", Outcome.ok "", Outcome.timeout, Outcome.ok ""⟩).movedPhy
      = some "phy1" ∧
    (move_to_container "wlan1" "persona-good-wlan1-5" "wlan_sim"
      ⟨true, some 77, Outcome.ok "Interface wlan1\n\twiphy 1", Outcome.ok "",
        Outcome.ok "", Outcome.ok "", Outcome.timeout, Outcome.ok ""⟩).success
      = false ∧
    (move_to_container "wlan1" "persona-good-wlan1-5" "wlan_sim"
      ⟨true, some 77, Outcome.ok "Interface wlan1\n\twiphy 1", Outcome.ok "",
        Outcome.ok "", Outcome.ok "", Outcome.timeout, Outcome.ok ""⟩).compensated
      = false := by decide

/-- C6 amended: when the radio move into the target namespace succeeded and
the in-container rename or bring-up fails with a non-zero exit status (and
the in-container link listing did not itself raise), `move_to_container`
attempts the compensating `return_to_host` before returning the error; a
rename/bring-up failure that raises instead (e.g. a timeout) is returned
without the compensating action. -/
theorem C6_compensation_amended :
    ∀ (iface cname target : String) (env : MoveEnv) (pid : Nat) (phy e : String),
      env.clientOk = true →
      env.container = some pid → pid ≠ 0 →
      get_phy_name env.iwInfo = some phy →
      env.linkDown.isTimeout = false →
      env.phyMove = Outcome.ok e →
      env.nsLinkShow.isTimeout = false →
      (env.nsRename.isFail || (env.nsRename.isOk && env.nsUp.isFail)) = true →
      (move_to_container iface cname target env).movedPhy = some phy ∧
      (move_to_container iface cname target env).compensated = true ∧
      (move_to_container iface cname target env).success = false := by
  intro iface cname target env pid phy e hc hcont hpid hphy hld hpm hls hfail
  obtain ⟨cOk, cont, iw, ld, pm, ls, rn, up⟩ := env
  simp only at hc hcont hphy hld hpm hls hfail
  subst hc hcont hpm
  cases ld <;> cases ls <;> cases rn <;> cases up <;>
    simp_all [move_to_container, Outcome.isFail, Outcome.isOk,
      Outcome.isTimeout, hpid, hphy]

/-- C6 amended witness: a concrete rename failure with exit status 1 does
trigger the compensating action. -/
theorem C6_compensation_amended_witness :
    (move_to_container "wlan1" "persona-bad-wlan2-8" "wlan_sim"
      ⟨true, some 88, Outcome.ok "Interface wlan1\n\twiphy 3", Outcome.ok "",
        Outcome.ok "", Outcome.ok "", Outcome.fail "RTNETLINK answers: busy",
        Outcome.ok ""⟩).movedPhy = some "phy3" ∧
    (move_to_container "wlan1" "persona-bad-wlan2-8" "wlan_sim"
      ⟨true, some 88, Outcome.ok "Interface wlan1\n\twiphy 3", Outcome.ok "",
        Outcome.ok "", Outcome.ok "", Outcome.fail "RTNETLINK answers: busy",
        Outcome.ok ""⟩).compensated = true ∧
    (move_to_container "wlan1" "persona-bad-wlan2-8" "wlan_sim"
      ⟨true, some 88, Outcome.ok "Interface wlan1\n\twiphy 3", Outcome.ok "",
        Outcome.ok "", Outcome.ok "", Outcome.fail "RTNETLINK answers: busy",
        Outcome.ok ""⟩).success = false :=
  C6_compensation_amended "wlan1" "persona-bad-wlan2-8" "wlan_sim"
    ⟨true, some 88, Outcome.ok "Interface wlan1\n\twiphy 3", Outcome.ok "",
      Outcome.ok "", Outcome.ok "", Outcome.fail "RTNETLINK answers: busy",
      Outcome.ok ""⟩ 88 "phy3" ""
    (by decide) (by decide) (by decide) (by decide) (by decide) (by decide)
    (by decide) (by decide)

/-- C7 counterexample: a call whose direct interface-level move raises a
timeout returns failure without the radio/PHY-level retry ever being
attempted, although the phy was resolvable and the phy-level move would have
exited 0 — refuting "on its failure the radio/PHY-level move is retried" and
"returns failure only if both tiers fail". -/
theorem C7_no_retry_on_timeout :
    (return_to_host "wlan1" 42
      ⟨Outcome.timeout, Outcome.ok "", Outcome.ok "\twiphy 2",
        Outcome.ok ""⟩).success = false ∧
    (return_to_host "wlan1" 42
      ⟨Outcome.timeout, Outcome.ok "", Outcome.ok "\twiphy 2",
        Outcome.ok ""⟩).retriedPhy = false ∧
    (get_phy_name ((⟨Outcome.timeout, Outcome.ok "", Outcome.ok "\twiphy 2",
        Outcome.ok ""⟩ : ReturnEnv).iwInfo)).isSome = true ∧
    ((⟨Outcome.timeout, Outcome.ok "", Outcome.ok "\twiphy 2",
        Outcome.ok ""⟩ : ReturnEnv).phyMove).isOk = true := by decide

/-- C7 amended: `return_to_host` tries the direct interface-level move first
and enters the radio/PHY-level retry exactly when the direct move fails with
a non-zero exit status; it returns success exactly when the direct move
exited 0 and the best-effort host bring-up did not raise, or the direct move
exited non-zero, the phy resolved, and the phy-level move exited 0.  A
timeout of the direct move (or of the host bring-up) yields failure without
the phy-level retry; every exception is caught, so the call never raises. -/
theorem C7_return_two_tier_amended :
    ∀ (iface : String) (pid : Nat) (env : ReturnEnv),
      (return_to_host iface pid env).retriedPhy = env.directMove.isFail ∧
      (return_to_host iface pid env).success =
        (env.directMove.isOk && !env.hostUp.isTimeout ||
         env.directMove.isFail && (get_phy_name env.iwInfo).isSome
           && env.phyMove.isOk) := by
  intro iface pid env
  obtain ⟨d, h, iw, pm⟩ := env
  cases d <;> cases h <;> cases pm <;> cases hgp : get_phy_name iw <;>
    simp [return_to_host, Outcome.isFail, Outcome.isOk, Outcome.isTimeout, hgp]

theorem stringMk_ne_empty {l : List Char} (h : l ≠ []) : String.mk l ≠ "" := by
  intro hEq
  apply h
  have hd : (String.mk l).data = ("" : String).data := by rw [hEq]
  simpa using hd

theorem pywordsAux_ne_empty : ∀ (l acc : List Char), ∀ x ∈ pywordsAux l acc, x ≠ "" := by
  intro l
  induction l with
  | nil =>
    intro acc x hx
    simp only [pywordsAux] at hx
    split at hx
    · cases hx
    · next hne =>
      rw [List.mem_singleton] at hx
      subst hx
      apply stringMk_ne_empty
      intro hrev
      rw [List.reverse_eq_nil_iff] at hrev
      subst hrev
      simp at hne
  | cons c rest ih =>
    intro acc x hx
    simp only [pywordsAux] at hx
    split at hx
    · split at hx
      · exact ih _ x hx
      · next hne =>
        rcases List.mem_cons.mp hx with hx | hx
        · subst hx
          apply stringMk_ne_empty
          intro hrev
          rw [List.reverse_eq_nil_iff] at hrev
          subst hrev
          simp at hne
        · exact ih _ x hx
    · exact ih _ x hx

theorem pywords_ne_empty (s : String) : ∀ x ∈ pywords s, x ≠ "" :=
  pywordsAux_ne_empty s.data []

theorem parseDefaultRoute_ne_empty {routeOut : Option String} {p : String}
    (h : parseDefaultRouteIface routeOut = some p) : p ≠ "" := by
  cases routeOut with
  | none => cases h
  | some out =>
    simp only [parseDefaultRouteIface] at h
    obtain ⟨line, hline, hsome⟩ := List.exists_of_findSome?_eq_some h
    cases hidx : (pywords line).findIdx? (fun t => t == "dev") with
    | none => rw [hidx] at hsome; cases hsome
    | some i =>
      rw [hidx] at hsome
      dsimp only at hsome
      split at hsome
      · exact pywords_ne_empty line p (List.getElem?_mem hsome)
      · cases hsome

theorem basicModeStep_protected {p : String} (hp : p ≠ "")
    (acc : List (String × IfaceEntry)) (line : String)
    (hacc : ∀ e ∈ acc, e.2.name = p → e.2.assignable = false) :
    ∀ e ∈ basicModeStep (some p) acc line,
      e.2.name = p → e.2.assignable = false := by
  intro e he hname
  simp only [basicModeStep] at he
  split at he
  · rcases mem_setKey he with hEq | hmem
    · subst hEq
      dsimp only at hname ⊢
      set ifc := pytrim ((splitCh line ':').getD 1 "") with hifc
      cases hb : (ifc == p) with
      | true =>
        simp only [hp, decide_not, hb, Bool.and_true, markProtected]
        simp [hp]
      | false =>
        exfalso
        rw [hb] at hname
        simp only [Bool.and_false, Bool.false_eq_true, if_false] at hname
        exact absurd (by simp [hname] : (ifc == p) = true) (by simp [hb])
    · exact hacc e hmem hname
  · exact hacc e he hname

theorem foldl_basicModeStep_protected {p : String} (hp : p ≠ "") :
    ∀ (lines : List String) (acc : List (String × IfaceEntry)),
      (∀ e ∈ acc, e.2.name = p → e.2.assignable = false) →
      ∀ e ∈ lines.foldl (basicModeStep (some p)) acc,
        e.2.name = p → e.2.assignable = false := by
  intro lines
  induction lines with
  | nil => intro acc hacc; exact hacc
  | cons l ls ih =>
    intro acc hacc
    exact ih _ (basicModeStep_protected hp acc l hacc)

theorem normalModeEntry_protected {p : String} (hp : p ≠ "") (nm : String)
    (info : DiscInfo) (hname : (normalModeEntry (some p) nm info).name = p) :
    (normalModeEntry (some p) nm info).assignable = false := by
  simp only [normalModeEntry] at hname ⊢
  cases hb : (nm == p) with
  | true =>
    simp only [hp, hb, markProtected]
    simp [hp]
  | false =>
    exfalso
    rw [hb] at hname
    simp only [Bool.and_false, Bool.false_eq_true, if_false] at hname
    exact absurd (by simp [hname] : (nm == p) = true) (by simp [hb])

/-- C8: whenever the interface-listing endpoint could determine the host's
default-route interface, no entry of its response that names that interface
is reported with `assignable` true — in both the normal discovery path and
the basic fallback path it is marked non-assignable. -/
theorem C8_protected_not_assignable :
    ∀ (routeOut : Option String) (managerUp : Bool) (linkOut : String)
      (discovered : List (String × DiscInfo)) (p : String) (e : IfaceEntry),
      parseDefaultRouteIface routeOut = some p →
      e ∈ api_interfaces routeOut managerUp linkOut discovered →
      e.name = p →
      e.assignable = false := by
  intro routeOut managerUp linkOut discovered p e hp hmem hname
  have hpne : p ≠ "" := parseDefaultRoute_ne_empty hp
  simp only [api_interfaces, hp] at hmem
  cases managerUp with
  | false =>
    simp only [Bool.not_false, if_true] at hmem
    obtain ⟨pr, hpr, hpe⟩ := List.mem_map.mp hmem
    subst hpe
    exact foldl_basicModeStep_protected hpne _ []
      (by intro x hx; cases hx) pr hpr hname
  | true =>
    simp only [Bool.not_true, Bool.false_eq_true, if_false] at hmem
    obtain ⟨q, hq, hqe⟩ := List.mem_map.mp hmem
    subst hqe
    exact normalModeEntry_protected hpne q.1 q.2 hname

/-- C8 witness: with the default route on `eth0`, the discovery response
reports `eth0` protected and not assignable. -/
theorem C8_protected_not_assignable_witness :
    parseDefaultRouteIface (some "default via 10.0.0.1 dev eth0 proto dhcp")
      = some "eth0" ∧
    (⟨"eth0", "ethernet", "UP", some false, false, true,
        some "Management/default-route interface"⟩ : IfaceEntry) ∈
      api_interfaces (some "default via 10.0.0.1 dev eth0 proto dhcp") true ""
        [("eth0", ⟨some "ethernet", some "UP", some true, none⟩),
         ("wlan1", ⟨some "wifi", some "UP", some true, none⟩)] ∧
    (⟨"eth0", "ethernet", "UP", some false, false, true,
        some "Management/default-route interface"⟩ : IfaceEntry).assignable
      = false := by
  refine ⟨by decide, by decide, ?_⟩
  exact C8_protected_not_assignable
    (some "default via 10.0.0.1 dev eth0 proto dhcp") true ""
    [("eth0", ⟨some "ethernet", some "UP", some true, none⟩),
     ("wlan1", ⟨some "wifi", some "UP", some true, none⟩)] "eth0"
    ⟨"eth0", "ethernet", "UP", some false, false, true,
      some "Management/default-route interface"⟩
    (by decide) (by decide) (by decide)

theorem truthy_some {o : Option String} (h : truthy o = true) :
    ∃ i, o = some i ∧ i ≠ "" := by
  cases o with
  | none => simp [truthy] at h
  | some i => exact ⟨i, rfl, by simpa [truthy] using h⟩

/-- C9: the start endpoint enforces the type-specific credential requirements
on the effective (request-merged-with-stored-config) credentials before any
container-side effect, with state and world unchanged on rejection: any
validation error leaves state and world untouched and creates nothing; a
`wired` persona passes with no credentials at all; a `bad` persona is
rejected exactly when the effective network identifier is missing (its
credential is discarded by design); a `good` persona is rejected exactly when
the effective network identifier or credential is missing — in particular a
`good` start with no request credential and no stored credential is rejected
before container creation. -/
theorem C9_credential_requirements :
    (∀ (s : MgrState) (w : World) (pt ifc ssid password : Option String)
       (cfgS cfgP : String) (env : StartEnv) (err : ApiError),
      api_validate pt ifc ssid password cfgS cfgP = Except.error err →
      api_start_persona s w pt ifc ssid password cfgS cfgP env
        = ⟨err.status, false, err.message, s, w, false⟩) ∧
    (∀ (ifc ssid password : Option String) (cfgS cfgP : String),
      truthy ifc = true →
      api_validate (some "wired") ifc ssid password cfgS cfgP
        = Except.ok ("wired", ifc.getD "", none, none)) ∧
    (∀ (ifc ssid password : Option String) (cfgS cfgP : String),
      truthy ifc = true →
      api_validate (some "bad") ifc ssid password cfgS cfgP
        = (if truthy (readConfigMerge ssid password cfgS cfgP).1 then
            Except.ok ("bad", ifc.getD "",
              (readConfigMerge ssid password cfgS cfgP).1, none)
           else Except.error ⟨400, "SSID required for bad persona"⟩)) ∧
    (∀ (ifc ssid password : Option String) (cfgS cfgP : String),
      truthy ifc = true →
      api_validate (some "good") ifc ssid password cfgS cfgP
        = (if truthy (readConfigMerge ssid password cfgS cfgP).1 &&
              truthy (readConfigMerge ssid password cfgS cfgP).2 then
            Except.ok ("good", ifc.getD "",
              (readConfigMerge ssid password cfgS cfgP).1,
              (readConfigMerge ssid password cfgS cfgP).2)
           else Except.error ⟨400, "SSID and password required for good persona"⟩)) ∧
    (∀ (s : MgrState) (w : World) (ifc ssid : Option String) (cfgS : String)
       (env : StartEnv),
      truthy ifc = true →
      api_start_persona s w (some "good") ifc ssid none cfgS "" env
        = ⟨400, false, "SSID and password required for good persona",
            s, w, false⟩) := by
  refine ⟨?_, ?_, ?_, ?_, ?_⟩
  · intro s w pt ifc ssid password cfgS cfgP env err herr
    simp only [api_start_persona, herr]
  · intro ifc ssid password cfgS cfgP hifc
    obtain ⟨i, rfl, hi⟩ := truthy_some hifc
    simp [api_validate, truthy, hi]
  · intro ifc ssid password cfgS cfgP hifc
    obtain ⟨i, rfl, hi⟩ := truthy_some hifc
    cases hm : (readConfigMerge ssid password cfgS cfgP).1 with
    | none => simp [api_validate, truthy, hi, hm]
    | some v =>
      by_cases hv : v = "" <;> simp [api_validate, truthy, hi, hm, hv]
  · intro ifc ssid password cfgS cfgP hifc
    obtain ⟨i, rfl, hi⟩ := truthy_some hifc
    cases hm1 : (readConfigMerge ssid password cfgS cfgP).1 with
    | none => simp [api_validate, truthy, hi, hm1]
    | some v1 =>
      cases hm2 : (readConfigMerge ssid password cfgS cfgP).2 with
      | none =>
        by_cases hv1 : v1 = "" <;> simp [api_validate, truthy, hi, hm1, hm2, hv1]
      | some v2 =>
        by_cases hv1 : v1 = "" <;> by_cases hv2 : v2 = "" <;>
          simp [api_validate, truthy, hi, hm1, hm2, hv1, hv2]
  · intro s w ifc ssid cfgS env hifc
    obtain ⟨i, rfl, hi⟩ := truthy_some hifc
    have hv : api_validate (some "good") (some i) ssid none cfgS ""
        = Except.error ⟨400, "SSID and password required for good persona"⟩ := by
      simp [api_validate, readConfigMerge, truthy, hi]
    simp only [api_start_persona, hv]

/-- C9 witness: a `good` start on `wlan2` with no credential anywhere is
rejected with HTTP 400, and the state, the container world, and the absence
of any created container are all preserved. -/
theorem C9_credential_requirements_witness :
    api_start_persona MgrState.init ⟨[]⟩ (some "good") (some "wlan2")
      (some "TestNet") none "" ""
      ⟨true, true, 5, "cidY", 13, true, true, true, "", true⟩
      = ⟨400, false, "SSID and password required for good persona",
          MgrState.init, ⟨[]⟩, false⟩ :=
  C9_credential_requirements.2.2.2.2 MgrState.init ⟨[]⟩ (some "wlan2")
    (some "TestNet") ""
    ⟨true, true, 5, "cidY", 13, true, true, true, "", true⟩ (by decide)

end WifiDash
